import Mathlib

/-!
Shallow embedding of the uniform-resource repository's core:
the redirect resolver (`visit` / `follow` of the traverse-urls module),
the resource transformers (`RemoveLabelLineBreaksAndTrimSpaces`,
`RemoveTrackingCodesFromUrl`, `FollowRedirectsGranular`), the
transformation-pipeline combinator (`transformationPipe`), the LRU cache
(`lruCache`), the curatable-content title resolution
(`BuildCuratableContent.title`), and the downloader finalization
(`TypicalDownloader.finalize` with `isDownloadIdeterminateFileResult`).

Conventions of the embedding:
* the HTTP network is an explicit parameter `Network` mapping a URL to
  either a response or a thrown exception (`Except.error`), covering
  fetch failures, body-read failures and MIME-constructor failures that
  the source catches in `follow`'s try/catch;
* the MIME major type computed by the external whatwg-mimetype
  collaborator is carried as a field of the response
  (the library is an external collaborator, not re-implemented);
* JavaScript's structural `"field" in o` discrimination is modelled with
  `Option` fields (`some` = the field is present) resp. `Bool` flags for
  the `isXyz: true` marker fields; the object-spread
  `{...resource, f: v}` becomes rebuilding the record with the listed
  fields replaced and every other field copied from the input;
* asynchronous functions that may throw become `Except String` values;
  `await` becomes `Except` sequencing.
-/

/-! ## Visit results (traverse-urls module, src/unnamed/part_005)

The source builds plain objects and discriminates them structurally:
`isVisitError` tests `"error" in o`, `isRedirectResult` tests
`"redirectUrl" in o` (true for both HTTP and meta-refresh redirects),
`isTerminalResult` tests `"terminalResult" in o` (true for both plain
and text terminals), `isTerminalTextContentResult` tests
`"terminalTextContentResult" in o`.  The five object shapes produced by
`visit`/`follow` become the five constructors below, and each predicate
is true exactly on the constructors that carry the tested field. -/

inductive VisitResult : Type where
  /-- `{ url, error }` -/
  | visitError (url : String) (error : String)
  /-- `{ url, httpRedirect: true, httpStatus, redirectUrl, httpHeaders }` -/
  | httpRedirect (url : String) (httpStatus : Nat) (redirectUrl : String)
  /-- `{ url, metaRefreshRedirect: true, httpStatus, redirectUrl,
      contentText?, httpHeaders, contentType, mimeType }` -/
  | contentRedirect (url : String) (httpStatus : Nat) (redirectUrl : String)
      (contentText : Option String) (contentType : String) (mimeType : String)
  /-- `{ url, httpStatus, httpHeaders, terminalResult: true, contentType, mimeType }` -/
  | terminal (url : String) (httpStatus : Nat) (contentType : String) (mimeType : String)
  /-- `{ url, httpStatus, terminalResult: true, terminalTextContentResult: true,
      contentText, httpHeaders, contentType, mimeType }` -/
  | terminalTextContent (url : String) (httpStatus : Nat) (contentText : String)
      (contentType : String) (mimeType : String)
  deriving DecidableEq, Repr

namespace VisitResult

/-- The `url` field every visit result carries. -/
def url : VisitResult → String
  | .visitError u _ => u
  | .httpRedirect u _ _ => u
  | .contentRedirect u _ _ _ _ _ => u
  | .terminal u _ _ _ => u
  | .terminalTextContent u _ _ _ _ => u

/-- `httpStatus` where present (`VisitError` has none). -/
def httpStatus : VisitResult → Option Nat
  | .visitError _ _ => none
  | .httpRedirect _ s _ => some s
  | .contentRedirect _ s _ _ _ _ => some s
  | .terminal _ s _ _ => some s
  | .terminalTextContent _ s _ _ _ => some s

/-- The `error` field (present only on `VisitError`). -/
def errorOf : VisitResult → Option String
  | .visitError _ e => some e
  | _ => none

/-- Reading `o.redirectUrl`: defined on the two redirect shapes, which is
the only place the source reads it (guarded by `isRedirectResult`). -/
def redirectUrlOf : VisitResult → String
  | .httpRedirect _ _ r => r
  | .contentRedirect _ _ r _ _ _ => r
  | _ => ""

end VisitResult

/-- `isVisitError(o) = "error" in o`. -/
def isVisitError : VisitResult → Bool
  | .visitError _ _ => true
  | _ => false

/-- `isRedirectResult(o) = "redirectUrl" in o`: both redirect shapes carry it. -/
def isRedirectResult : VisitResult → Bool
  | .httpRedirect _ _ _ => true
  | .contentRedirect _ _ _ _ _ _ => true
  | _ => false

/-- `isHttpRedirectResult(o) = "httpRedirect" in o`. -/
def isHttpRedirectResult : VisitResult → Bool
  | .httpRedirect _ _ _ => true
  | _ => false

/-- `isContentRedirectResult(o) = "metaRefreshRedirect" in o`. -/
def isContentRedirectResult : VisitResult → Bool
  | .contentRedirect _ _ _ _ _ _ => true
  | _ => false

/-- `isTerminalResult(o) = "terminalResult" in o`: both terminal shapes carry it. -/
def isTerminalResult : VisitResult → Bool
  | .terminal _ _ _ _ => true
  | .terminalTextContent _ _ _ _ _ => true
  | _ => false

/-- `isTerminalTextContentResult(o) = "terminalTextContentResult" in o`. -/
def isTerminalTextContentResult : VisitResult → Bool
  | .terminalTextContent _ _ _ _ _ => true
  | _ => false

/-! ## The fetch collaborator and follow options -/

/-- One HTTP response as `visit` consumes it: the status, the
`location` header (`response.headers.get('location')`), the
`Content-Type` header, the major type computed by the whatwg-mimetype
collaborator from that header (`new mime(contentType).type`), and the
body (`await response.text()`). -/
structure FetchResponse where
  status : Nat
  location : Option String
  contentType : String
  mimeMajorType : String
  bodyText : String
  deriving DecidableEq, Repr

/-- A network: the single outbound request `visit` issues per hop.
`Except.error` models any exception thrown while fetching or reading
the response (timeout, DNS failure, body decode failure, ...). -/
def Network : Type := String → Except String FetchResponse

/-- `FollowOptions` (src/unnamed/part_005 lines 73-81): `userAgent`,
`fetchTimeOut` and `saveContentRedirectText` only shape the request or
the retained body, the rest drives the control flow. -/
structure FollowOptions where
  maxRedirectDepth : Nat
  saveContentRedirectText : Bool
  prepareUrlForFetch : Option (String → Nat → String)
  extractMetaRefreshUrl : String → Option String
  isRedirect : Nat → Bool

/-- `TypicalFollowOptions.isRedirect`: status in {301, 302, 303, 307, 308}. -/
def typicalIsRedirect (status : Nat) : Bool :=
  status == 301 || status == 302 || status == 303 || status == 307 || status == 308

/-! ## visit (src/unnamed/part_005 lines 83-116) -/

/-- `visit(originalURL, position, options)`: issue one manual-redirect
fetch and classify the response.  A thrown exception from the fetch is
surfaced as `Except.error` for `follow`'s try/catch. -/
def visit (network : Network) (originalURL : String) (position : Nat)
    (options : FollowOptions) : Except String VisitResult :=
  let url := match options.prepareUrlForFetch with
    | some prepare => prepare originalURL position
    | none => originalURL
  match network url with
  | .error e => .error e
  | .ok response =>
    if options.isRedirect response.status then
      match response.location with
      | none => .ok (.visitError url
          (url ++ " responded with status " ++ toString response.status ++
           " but no location header"))
      | some location =>
        .ok (.httpRedirect url response.status location)
    else
      -- const contentType = response.headers.get("Content-Type")!
      -- const mimeType = new mime(contentType);
      if response.status == 200 && response.mimeMajorType == "text" then
        match options.extractMetaRefreshUrl response.bodyText with
        | some redirectUrl =>
          .ok (.contentRedirect url response.status redirectUrl
            (if options.saveContentRedirectText then some response.bodyText else none)
            response.contentType response.mimeMajorType)
        | none =>
          .ok (.terminalTextContent url response.status response.bodyText
            response.contentType response.mimeMajorType)
      else
        .ok (.terminal url response.status response.contentType response.mimeMajorType)

/-! ## follow (src/unnamed/part_005 lines 150-175)

The while loop carries `position` (starting at 1) and the current URL.
Each iteration first checks `position > maxRedirectDepth` and throws
(`Except.error`) when exceeded; otherwise it visits once, catching any
exception into a trailing `VisitError`, and keeps looping only while
the latest visit is a redirect.  The returned list is in hop order
(`visits.push`). -/

def followLoop (network : Network) (options : FollowOptions)
    (url : String) (position : Nat) : Except String (List VisitResult) :=
  if _h : position > options.maxRedirectDepth then
    .error ("Exceeded max redirect depth of " ++ toString options.maxRedirectDepth)
  else
    match visit network url position options with
    | .error err =>
      -- catch (err) { continueVisiting = false; visits.push({url, error: err}) }
      .ok [VisitResult.visitError url err]
    | .ok visitResult =>
      if isRedirectResult visitResult then
        match followLoop network options visitResult.redirectUrlOf (position + 1) with
        | .error e => .error e
        | .ok rest => .ok (visitResult :: rest)
      else
        .ok [visitResult]
termination_by options.maxRedirectDepth + 1 - position
decreasing_by omega

/-- `follow(originalURL, options)`: run the loop from position 1. -/
def follow (network : Network) (originalURL : String)
    (options : FollowOptions) : Except String (List VisitResult) :=
  followLoop network options originalURL 1

/-! ## Chain-shape predicates over a network

`redirectChainB network options url position n` holds when visiting
`url` at `position` classifies as a redirect, its target likewise, for
`n` hops, and the visit after the `n` redirects classifies as terminal.
`chainThenFailB` is the same shape but the final fetch throws. -/

def redirectChainB (network : Network) (options : FollowOptions) :
    String → Nat → Nat → Bool
  | url, position, 0 =>
    match visit network url position options with
    | .ok r => isTerminalResult r
    | .error _ => false
  | url, position, n + 1 =>
    match visit network url position options with
    | .ok r =>
      isRedirectResult r &&
        redirectChainB network options r.redirectUrlOf (position + 1) n
    | .error _ => false

def chainThenFailB (network : Network) (options : FollowOptions) :
    String → Nat → Nat → Bool
  | url, position, 0 =>
    match visit network url position options with
    | .ok _ => false
    | .error _ => true
  | url, position, n + 1 =>
    match visit network url position options with
    | .ok r =>
      isRedirectResult r &&
        chainThenFailB network options r.redirectUrlOf (position + 1) n
    | .error _ => false

/-- `allRedirectsB network options url position n`: the next `n` visits
from `url` all classify as redirects (used to express "the redirect
chain is longer than the configured maximum"). -/
def allRedirectsB (network : Network) (options : FollowOptions) :
    String → Nat → Nat → Bool
  | _, _, 0 => true
  | url, position, n + 1 =>
    match visit network url position options with
    | .ok r =>
      isRedirectResult r &&
        allRedirectsB network options r.redirectUrlOf (position + 1) n
    | .error _ => false

/-! ## Uniform resources (src/unnamed/part_006)

`UniformResource` objects are augmented by object spread; the fields a
transformer may add are modelled as `Option`s (marker fields such as
`isFollowedResource: true` as `Bool`s).  `transformedFromUR` stores the
whole predecessor resource, so the type is an inductive rather than a
structure.  The `provenance`/`doi` fields are carried verbatim by every
spread and inspected by no transformer, so they are represented by the
single opaque `provenance` string.  The `URL` object built by
`new url.URL(last.url)` is an external collaborator; only the string it
was built from is retained. -/

inductive UniformResource : Type where
  | mk
      (uri : String)
      (label : Option String)
      (provenance : String)
      (transformedFromUR : Option UniformResource)
      (pipePosition : Option Nat)
      (remarks : Option String)
      (isFollowedResource : Bool)
      (isRedirectedResource : Bool)
      (followResults : Option (List VisitResult))
      (terminalResult : Option VisitResult)
      (uRLString : Option String)
      (isInvalidResource : Bool)
      (errorField : Option String)
  deriving Repr

namespace UniformResource

def uri : UniformResource → String
  | .mk u _ _ _ _ _ _ _ _ _ _ _ _ => u

def label : UniformResource → Option String
  | .mk _ l _ _ _ _ _ _ _ _ _ _ _ => l

def provenance : UniformResource → String
  | .mk _ _ p _ _ _ _ _ _ _ _ _ _ => p

def transformedFromUR : UniformResource → Option UniformResource
  | .mk _ _ _ t _ _ _ _ _ _ _ _ _ => t

def pipePosition : UniformResource → Option Nat
  | .mk _ _ _ _ p _ _ _ _ _ _ _ _ => p

def remarks : UniformResource → Option String
  | .mk _ _ _ _ _ r _ _ _ _ _ _ _ => r

def isFollowedResource : UniformResource → Bool
  | .mk _ _ _ _ _ _ f _ _ _ _ _ _ => f

def isRedirectedResource : UniformResource → Bool
  | .mk _ _ _ _ _ _ _ r _ _ _ _ _ => r

def followResults : UniformResource → Option (List VisitResult)
  | .mk _ _ _ _ _ _ _ _ f _ _ _ _ => f

def terminalResult : UniformResource → Option VisitResult
  | .mk _ _ _ _ _ _ _ _ _ t _ _ _ => t

def uRLString : UniformResource → Option String
  | .mk _ _ _ _ _ _ _ _ _ _ u _ _ => u

def isInvalidResource : UniformResource → Bool
  | .mk _ _ _ _ _ _ _ _ _ _ _ i _ => i

def errorField : UniformResource → Option String
  | .mk _ _ _ _ _ _ _ _ _ _ _ _ e => e

end UniformResource

/-- A plain original resource as `acquireResource` builds it:
`{ isUniformResource: true, provenance, uri, label }`. -/
def originalResource (uri : String) (label : Option String)
    (provenance : String) : UniformResource :=
  .mk uri label provenance none none none false false none none none false none

/-- `isTransformedResource(o) = "transformedFromUR" in o && "pipePosition" in o`. -/
def isTransformedResource (o : UniformResource) : Bool :=
  o.transformedFromUR.isSome && o.pipePosition.isSome

/-- `nextTransformationPipePosition(o)`
(src/unnamed/part_006 lines 69-71): `"pipePosition" in o ? o.pipePosition + 1 : 0`. -/
def nextTransformationPipePosition (o : UniformResource) : Nat :=
  match o.pipePosition with
  | some p => p + 1
  | none => 0

/-! ## RemoveLabelLineBreaksAndTrimSpaces (src/unnamed/part_006 lines 86-106) -/

/-- `label.replace(/\r\n|\n|\r/gm, " ").trim()`: the alternation takes
`\r\n` as one match before a lone `\n` or `\r`, so sequential
replacement of `"\r\n"`, then `"\n"`, then `"\r"` by a space agrees
with it; `trim` strips surrounding whitespace. -/
def cleanLabelOf (labelText : String) : String :=
  (((labelText.replace "\r\n" " ").replace "\n" " ").replace "\r" " ").trim

/-- `RemoveLabelLineBreaksAndTrimSpaces.flow`. -/
def removeLabelLineBreaksAndTrimSpaces (resource : UniformResource) :
    UniformResource :=
  match resource.label with
  | none => resource
  | some labelText =>
    let cleanLabel := cleanLabelOf labelText
    if cleanLabel != labelText then
      .mk resource.uri (some cleanLabel) resource.provenance
        (some resource) (some (nextTransformationPipePosition resource))
        (some "Removed line breaks and trimmed spaces in label")
        resource.isFollowedResource resource.isRedirectedResource
        resource.followResults resource.terminalResult resource.uRLString
        resource.isInvalidResource resource.errorField
    else
      resource

/-! ## RemoveTrackingCodesFromUrl (src/unnamed/part_006 lines 108-125)

The tracking-codes regular expression
`/(?<=&|\?)utm_.*?(&|$)/igm` deletes, at every position preceded by `&`
or `?`, a case-insensitive `utm_` followed lazily by anything up to and
including the next `&` (or to the end of the string). -/

/-- Drop characters up to and including the first `'&'`
(the lazy `.*?(&|$)` consumption after a match starts). -/
def dropThroughAmp : List Char → List Char
  | [] => []
  | c :: cs => if c = '&' then cs else dropThroughAmp cs

theorem dropThroughAmp_length_le : ∀ cs : List Char,
    (dropThroughAmp cs).length ≤ cs.length := by
  intro cs
  induction cs with
  | nil => simp [dropThroughAmp]
  | cons c cs ih =>
    simp only [dropThroughAmp]
    by_cases h : c = '&'
    · simp [h]
    · simp only [h, if_false, List.length_cons]
      omega

/-- Case-insensitive `utm_` at the head of the character list. -/
def startsWithUtm : List Char → Bool
  | c1 :: c2 :: c3 :: c4 :: _ =>
    c1.toLower = 'u' && c2.toLower = 't' && c3.toLower = 'm' && c4 = '_'
  | _ => false

/-- Global replacement by `""` of `/(?<=&|\?)utm_.*?(&|$)/i`, scanning
left to right with the preceding character as lookbehind context
(after a match the consumed `&`, if any, is the new context).  A match
starts with `u`/`U` — never `&` — so the lazy consumption through the
next ampersand may equivalently start right after that first
character. -/
def stripUtmAux : Option Char → List Char → List Char
  | _, [] => []
  | prev, c :: cs =>
    if (prev = some '&' || prev = some '?') && startsWithUtm (c :: cs) then
      stripUtmAux (some '&') (dropThroughAmp cs)
    else
      c :: stripUtmAux (some c) cs
termination_by _ cs => cs.length
decreasing_by
  · have h := dropThroughAmp_length_le cs
    simp only [List.length_cons]
    omega
  · simp

def stripUtm (s : String) : String :=
  String.mk (stripUtmAux none s.data)

/-- `RemoveTrackingCodesFromUrl.flow` (src/unnamed/part_006 lines 111-124).
Note the source computes `cleanedURI` and branches on it but the
transformed object never assigns `uri: cleanedURI` — the returned
resource keeps the original `uri`. -/
def removeTrackingCodesFromUrl (resource : UniformResource) :
    UniformResource :=
  let cleanedURI := stripUtm resource.uri
  if cleanedURI != resource.uri then
    .mk resource.uri resource.label resource.provenance
      (some resource) (some (nextTransformationPipePosition resource))
      (some "Removed utm_* tracking parameters from URL")
      resource.isFollowedResource resource.isRedirectedResource
      resource.followResults resource.terminalResult resource.uRLString
      resource.isInvalidResource resource.errorField
  else
    resource

/-! ## FollowRedirectsGranular (src/unnamed/part_006 lines 146-195)

`flow` awaits `tru.traverse(resource.uri, options)` — the `follow`
resolver above — with no try/catch, so a rejection (`Except.error`,
e.g. the depth-exceeded throw) propagates to the caller of the step. -/

def followRedirectsGranularFlow (network : Network) (options : FollowOptions)
    (resource : UniformResource) : Except String UniformResource :=
  match follow network resource.uri options with
  | .error e => .error e
  | .ok visitResults =>
    .ok <|
      if visitResults.length > 0 then
        match visitResults.getLast? with
        | none => resource
        | some last =>
          if isTerminalResult last then
            if visitResults.length > 1 then
              -- redirected: spread + transform fields + follow fields
              .mk last.url resource.label resource.provenance
                (some resource) (some (nextTransformationPipePosition resource))
                (some ("Followed, with " ++ toString visitResults.length ++ " results"))
                true true (some visitResults) (some last) (some last.url)
                resource.isInvalidResource resource.errorField
            else
              -- single visit: spread + follow fields only
              .mk last.url resource.label resource.provenance
                resource.transformedFromUR resource.pipePosition resource.remarks
                true resource.isRedirectedResource resource.followResults
                (some last) (some last.url)
                resource.isInvalidResource resource.errorField
          else if isVisitError last then
            -- `{ isInvalidResource: true, ...resource, error, remarks }`:
            -- `resource` carries no own `isInvalidResource` key on the
            -- paths reaching this step, so the marker stays true
            .mk resource.uri resource.label resource.provenance
              resource.transformedFromUR resource.pipePosition
              last.errorOf resource.isFollowedResource
              resource.isRedirectedResource resource.followResults
              resource.terminalResult resource.uRLString
              true last.errorOf
          else
            resource
      else
        resource

/-! ## FollowRedirectsGranular.transform of the consolidated module
(src/uniform-resource.ts lines 446-483)

This variant memoizes `tru.traverse` results per URI in an
`lruCache`-backed object; the cache contents are passed explicitly
(`cached = none` is a cache miss, in which case `traverse` runs).
Every terminal chain — single-visit ones included — produces the full
transformed construction. -/

def followRedirectsGranularTransform (network : Network)
    (options : FollowOptions) (cached : Option (List VisitResult))
    (resource : UniformResource) : Except String UniformResource :=
  match (match cached with
         | some vs => .ok vs
         | none => follow network resource.uri options :
           Except String (List VisitResult)) with
  | .error e => .error e
  | .ok visitResults =>
    .ok <|
      if visitResults.length > 0 then
        match visitResults.getLast? with
        | none => resource
        | some last =>
          if isTerminalResult last then
            .mk last.url resource.label resource.provenance
              (some resource) (some (nextTransformationPipePosition resource))
              (some ("Followed, with " ++ toString visitResults.length ++ " results"))
              true resource.isRedirectedResource (some visitResults) (some last)
              resource.uRLString resource.isInvalidResource resource.errorField
          else if isVisitError last then
            .mk resource.uri resource.label resource.provenance
              resource.transformedFromUR resource.pipePosition
              last.errorOf resource.isFollowedResource
              resource.isRedirectedResource resource.followResults
              resource.terminalResult resource.uRLString
              true last.errorOf
          else
            resource
      else
        resource

/-! ## transformationPipe (src/uniform-resource.ts lines 543-567)

A transformer is `transform(ctx, resource) -> Promise<resource>`; the
combinator keeps the three source cases: zero steps yield an identity
transformer, one step delegates, several steps loop with
`result = await chain[i].transform(ctx, result)` — so a rejection stops
the loop and propagates. -/

structure TransformerContext where
  fetchTimeOut : Option Nat := none

def ResourceTransformer : Type :=
  TransformerContext → UniformResource → Except String UniformResource

def transformationPipe (chain : List ResourceTransformer) : ResourceTransformer :=
  match chain with
  | [] => fun _ resource => .ok resource
  | [tr] => fun ctx resource => tr ctx resource
  | tr :: rest => fun ctx resource =>
    rest.foldl (fun acc step => acc.bind (step ctx)) (tr ctx resource)

/-! ## lruCache (src/cache.ts lines 10-37)

The cache is a plain object behind a Proxy; the handler keeps a `Set`
of keys (insertion order).  The object is an association list in
property-insertion order; the `Set` is a duplicate-free list.  The
handler's `get` returns `obj[key]` and — when the entry is truthy —
moves the key to the end of the set; `set` stores `obj[key] = value`
and, when the set already has `maxEntries` keys, computes the set's
first key but then executes `delete obj[key]` on the key just written
and removes the first key from the set. -/

/-- `obj[key]` on a plain object. -/
def objGet {T : Type} (obj : List (String × T)) (key : String) : Option T :=
  match obj.find? (fun entry => entry.fst = key) with
  | some entry => some entry.snd
  | none => none

/-- `obj[key] = value`: overwrite in place, or append preserving
property-insertion order. -/
def objSet {T : Type} (obj : List (String × T)) (key : String) (value : T) :
    List (String × T) :=
  match obj with
  | [] => [(key, value)]
  | entry :: rest =>
    if entry.fst = key then (key, value) :: rest
    else entry :: objSet rest key value

/-- `delete obj[key]`. -/
def objDelete {T : Type} (obj : List (String × T)) (key : String) :
    List (String × T) :=
  match obj with
  | [] => []
  | entry :: rest =>
    if entry.fst = key then rest else entry :: objDelete rest key

/-- `Set.delete(key)` then `Set.add(key)`: move the key to the end. -/
def setPromote (keys : List String) (key : String) : List String :=
  (keys.erase key) ++ [key]

/-- The Proxy-backed cache: the target object plus the handler's key set. -/
structure CacheState (T : Type) where
  obj : List (String × T)
  keySet : List String

/-- A fresh `lruCache(maxEntries)`. -/
def lruCacheInit (T : Type) : CacheState T := ⟨[], []⟩

/-- The handler's `get` trap; `truthy` models JavaScript truthiness of
the stored value (`if (entry)`). -/
def cacheGet {T : Type} (truthy : T → Bool) (state : CacheState T)
    (key : String) : Option T × CacheState T :=
  match objGet state.obj key with
  | some value =>
    if truthy value then
      (some value, { state with keySet := setPromote state.keySet key })
    else
      (some value, state)
  | none => (none, state)

/-- The handler's `set` trap for `lruCache(maxEntries)`.  Note the two
verbatim-source quirks: the newly written key is never added to the key
set, and on overflow the source runs `delete obj[key]` — deleting the
entry just written — while removing the set's first key (the computed
`keyToDelete`) only from the set. -/
def cacheSet {T : Type} (maxEntries : Nat) (state : CacheState T)
    (key : String) (value : T) : CacheState T :=
  let obj1 := objSet state.obj key value
  if state.keySet.length ≥ maxEntries then
    let keyToDelete := state.keySet.head?
    let obj2 := objDelete obj1 key
    let keySet2 := match keyToDelete with
      | some k => state.keySet.erase k
      | none => state.keySet
    { obj := obj2, keySet := keySet2 }
  else
    { state with obj := obj1 }

/-! ## Curatable-content title resolution
(src/unnamed/part_000 lines 164-173 / src/uniform-resource.ts lines 227-236)

Only the `title` fields of the social graph matter here; the HTML/meta
extraction itself is the cheerio collaborator, so the page
`<title>` text and the parsed social graph are inputs. -/

structure OpenGraph where
  ogType : Option String := none
  title : Option String := none
  description : Option String := none
  imageURL : Option String := none
  deriving DecidableEq, Repr

structure TwitterCard where
  title : Option String := none
  description : Option String := none
  imageURL : Option String := none
  site : Option String := none
  creator : Option String := none
  deriving DecidableEq, Repr

structure SocialGraph where
  openGraph : Option OpenGraph := none
  twitter : Option TwitterCard := none
  deriving DecidableEq, Repr

/-- JavaScript truthiness of `socialGraph.xyz?.title`: the optional
chain yields a value that must also be a non-empty string. -/
def truthyTitle : Option String → Option String
  | some s => if s.isEmpty then none else some s
  | none => none

/-- `BuildCuratableContent.title(ctx, document, sg)`: start from
`document('head > title').text()`, overwrite with the Twitter Card
title when truthy, then overwrite with the Open Graph title when
truthy. -/
def buildCuratableContentTitle (pageTitle : String) (sg : SocialGraph) :
    String :=
  let result := pageTitle
  let result := match truthyTitle (sg.twitter.bind TwitterCard.title) with
    | some t => t
    | none => result
  let result := match truthyTitle (sg.openGraph.bind OpenGraph.title) with
    | some t => t
    | none => result
  result

/-! ## Downloader finalization (src/unnamed/part_006 lines 284-416)

`TypicalDownloader.finalize` inspects the written file: the destination
path and `fs.statSync` stats come from the filesystem collaborator, the
`Content-Length`/`Content-Disposition` headers from the terminal visit,
and the sniffed type from the `file-type` collaborator (`none` when the
sniff cannot determine a type).  The result objects are discriminated
structurally, so optional fields again model field presence. -/

structure FileTypeResult where
  ext : String
  mimeOf : String
  deriving DecidableEq, Repr

structure DownloadResult where
  isDownloadAttemptResult : Bool := false
  sizeExpected : Option Int := none
  downloadSkippedReason : Option String := none
  sizeDownloaded : Option Nat := none
  downloadErrorField : Option String := none
  downloadDestPath : Option String := none
  contentDispositionField : Option String := none
  downloadedFileStats : Option Nat := none
  downloadedFileType : Option FileTypeResult := none
  unknownFileType : Option String := none
  deriving DecidableEq, Repr

/-- `isDownloadSuccessResult(o) = "downloadDestPath" in o`. -/
def isDownloadSuccessResult (o : DownloadResult) : Bool :=
  o.downloadDestPath.isSome

/-- `isDownloadFileResult(o) = "downloadDestPath" in o && "downloadedFileType" in o`. -/
def isDownloadFileResult (o : DownloadResult) : Bool :=
  o.downloadDestPath.isSome && o.downloadedFileType.isSome

/-- `isDownloadIdeterminateFileResult(o) =
"unknownFileType" in o && "downloadedFileType" in o`
(src/unnamed/part_006 lines 333-335). -/
def isDownloadIdeterminateFileResult (o : DownloadResult) : Bool :=
  o.unknownFileType.isSome && o.downloadedFileType.isSome

/-- `TypicalDownloader.finalize` (src/unnamed/part_006 lines 369-415):
`sizeExpected` defaults to -1 and is parsed from a `Content-Length`
header on a terminal result; with `determineFileType` set, a successful
sniff renames the file and returns the typed success, a failed sniff
returns the indeterminate shape with an `unknownFileType` message and
no `downloadedFileType` field. -/
def typicalDownloaderFinalize (determineFileType : Bool)
    (downloadDestPath : String) (sizeHeader : Option Int) (stats : Nat)
    (cd : Option String) (sniffed : Option FileTypeResult) : DownloadResult :=
  let sizeExpected : Int := match sizeHeader with
    | some n => n
    | none => -1
  if determineFileType then
    match sniffed with
    | some fileType =>
      { isDownloadAttemptResult := true
        sizeExpected := some sizeExpected
        downloadedFileStats := some stats
        downloadDestPath := some (downloadDestPath ++ "." ++ fileType.ext)
        downloadedFileType := some fileType
        contentDispositionField := cd }
    | none =>
      { isDownloadAttemptResult := true
        downloadDestPath := some downloadDestPath
        unknownFileType := some ("Unable to determine type of file " ++ downloadDestPath)
        contentDispositionField := cd
        sizeExpected := some sizeExpected
        downloadedFileStats := some stats }
  else
    { isDownloadAttemptResult := true
      downloadDestPath := some downloadDestPath
      sizeExpected := some sizeExpected
      downloadedFileStats := some stats }

/-! ## Concrete inputs used to exercise the theorems -/

/-- A three-hop network: an HTTP 301, then a 200 text page carrying a
meta-refresh directive, then a terminal 200 text page. -/
def chainNet : Network := fun url =>
  if url = "http://a.example/" then
    .ok ⟨301, some "http://b.example/", "text/html", "text", ""⟩
  else if url = "http://b.example/" then
    .ok ⟨200, none, "text/html; charset=utf-8", "text", "meta-refresh-to-c"⟩
  else if url = "http://c.example/" then
    .ok ⟨200, none, "text/html; charset=utf-8", "text", "final article body"⟩
  else
    .error "getaddrinfo ENOTFOUND"

/-- A meta-refresh extractor recognizing the body served by `chainNet`. -/
def chainExtract (body : String) : Option String :=
  if body = "meta-refresh-to-c" then some "http://c.example/" else none

def chainOptions : FollowOptions :=
  { maxRedirectDepth := 10
    saveContentRedirectText := false
    prepareUrlForFetch := none
    extractMetaRefreshUrl := chainExtract
    isRedirect := typicalIsRedirect }

def chainResource : UniformResource :=
  originalResource "http://a.example/" none "spec-test"

/-- A network on which every fetch throws (an unresolvable host). -/
def failNet : Network := fun _ => .error "getaddrinfo ENOTFOUND t"

def tResource : UniformResource := originalResource "https://t" none "spec-test"

/-- A network that 301-redirects every URL to itself. -/
def loopNet : Network := fun url =>
  .ok ⟨301, some url, "text/html", "text", ""⟩

def loopOptions : FollowOptions :=
  { maxRedirectDepth := 3
    saveContentRedirectText := false
    prepareUrlForFetch := none
    extractMetaRefreshUrl := chainExtract
    isRedirect := typicalIsRedirect }

def loopResource : UniformResource :=
  originalResource "http://loop.example/" none "spec-test"

/-- A network that answers every URL with a terminal 200 text page. -/
def singleNet : Network := fun _ =>
  .ok ⟨200, none, "text/html; charset=utf-8", "text", "final article body"⟩

def singleResource : UniformResource :=
  originalResource "http://single.example/" none "spec-test"

/-- JavaScript truthiness of a number (`0` is falsy). -/
def natTruthy (n : Nat) : Bool := n != 0

def utmResource : UniformResource :=
  originalResource "https://example.com/?utm_source=twitter&id=1" none "spec-test"

/-- A social graph carrying both an Open Graph and a Twitter Card title. -/
def bothTitlesSocialGraph : SocialGraph :=
  { openGraph := some { title := some "OG Title" }
    twitter := some { title := some "TW Title" } }

/-! ## Classification facts -/

theorem not_redirect_of_terminal (r : VisitResult)
    (h : isTerminalResult r = true) : isRedirectResult r = false := by
  cases r <;> simp_all [isTerminalResult, isRedirectResult]

theorem not_terminal_of_redirect (r : VisitResult)
    (h : isRedirectResult r = true) : isTerminalResult r = false := by
  cases r <;> simp_all [isTerminalResult, isRedirectResult]

theorem not_visitError_of_redirect (r : VisitResult)
    (h : isRedirectResult r = true) : isVisitError r = false := by
  cases r <;> simp_all [isVisitError, isRedirectResult]

theorem not_visitError_of_terminal (r : VisitResult)
    (h : isTerminalResult r = true) : isVisitError r = false := by
  cases r <;> simp_all [isVisitError, isTerminalResult]

theorem not_terminal_of_visitError (r : VisitResult)
    (h : isVisitError r = true) : isTerminalResult r = false := by
  cases r <;> simp_all [isVisitError, isTerminalResult]

/-! ## The shape of `follow` on a redirect chain -/

/-- Core induction for C1: on a chain of `n` redirect-classified visits
followed by a terminal one, all within the depth budget, the loop
returns the `n + 1` hop results in order; exactly the last is terminal,
the earlier ones are redirects, none is an error. -/
theorem followLoop_of_redirectChainB (network : Network) (options : FollowOptions) :
    ∀ (n : Nat) (url : String) (position : Nat),
      redirectChainB network options url position n = true →
      position + n ≤ options.maxRedirectDepth →
      ∃ rs : List VisitResult,
        followLoop network options url position = .ok rs ∧
        rs.length = n + 1 ∧
        (∀ i, (h : i < rs.length) → isTerminalResult rs[i] = decide (i = n)) ∧
        (∀ i, (h : i < rs.length) → isRedirectResult rs[i] = decide (i < n)) ∧
        (∀ i, (h : i < rs.length) → isVisitError rs[i] = false) := by
  intro n
  induction n with
  | zero =>
    intro url position hchain hdepth
    unfold redirectChainB at hchain
    cases hv : visit network url position options with
    | error e => rw [hv] at hchain; simp at hchain
    | ok r =>
      rw [hv] at hchain
      have hnotred : isRedirectResult r = false := not_redirect_of_terminal r hchain
      refine ⟨[r], ?_, rfl, ?_, ?_, ?_⟩
      · rw [followLoop]
        have hpos : ¬ position > options.maxRedirectDepth := by omega
        rw [dif_neg hpos, hv]
        simp [hnotred]
      · intro i h
        have h0 : i = 0 := by simp at h; omega
        subst h0
        simpa using hchain
      · intro i h
        have h0 : i = 0 := by simp at h; omega
        subst h0
        simpa using hnotred
      · intro i h
        have h0 : i = 0 := by simp at h; omega
        subst h0
        simpa using not_visitError_of_terminal r hchain
  | succ n ih =>
    intro url position hchain hdepth
    unfold redirectChainB at hchain
    cases hv : visit network url position options with
    | error e => rw [hv] at hchain; simp at hchain
    | ok r =>
      rw [hv] at hchain
      simp only [Bool.and_eq_true] at hchain
      obtain ⟨hred, hrest⟩ := hchain
      obtain ⟨rs, hloop, hlen, hterm, hredIdx, herr⟩ :=
        ih r.redirectUrlOf (position + 1) hrest (by omega)
      refine ⟨r :: rs, ?_, by simp [hlen], ?_, ?_, ?_⟩
      · rw [followLoop]
        have hpos : ¬ position > options.maxRedirectDepth := by omega
        rw [dif_neg hpos, hv]
        simp [hred, hloop]
      · intro i h
        match i with
        | 0 =>
          simp only [List.getElem_cons_zero]
          rw [not_terminal_of_redirect r hred]
          have hne : 0 ≠ n + 1 := by omega
          simp [hne]
        | i + 1 =>
          simp only [List.getElem_cons_succ]
          have hi : i < rs.length := by simp at h; omega
          rw [hterm i hi]
          simp [decide_eq_decide]
      · intro i h
        match i with
        | 0 =>
          simp only [List.getElem_cons_zero]
          rw [hred]
          have hlt : 0 < n + 1 := by omega
          simp [hlt]
        | i + 1 =>
          simp only [List.getElem_cons_succ]
          have hi : i < rs.length := by simp at h; omega
          rw [hredIdx i hi]
          simp [decide_eq_decide]
      · intro i h
        match i with
        | 0 =>
          simp only [List.getElem_cons_zero]
          exact not_visitError_of_redirect r hred
        | i + 1 =>
          simp only [List.getElem_cons_succ]
          have hi : i < rs.length := by simp at h; omega
          exact herr i hi


/-! ## Length bound and depth-exceeded behavior of the loop -/

/-- Each loop iteration advances `position`, so an `ok` outcome carries
at most `maxRedirectDepth + 1 - position` visit results. -/
theorem followLoop_ok_length (network : Network) (options : FollowOptions) :
    ∀ (k : Nat) (url : String) (position : Nat) (rs : List VisitResult),
      options.maxRedirectDepth + 1 - position ≤ k →
      followLoop network options url position = .ok rs →
      rs.length ≤ options.maxRedirectDepth + 1 - position := by
  intro k
  induction k with
  | zero =>
    intro url position rs hk hloop
    rw [followLoop] at hloop
    rw [dif_pos (by omega)] at hloop
    cases hloop
  | succ k ih =>
    intro url position rs hk hloop
    rw [followLoop] at hloop
    by_cases hpos : position > options.maxRedirectDepth
    · rw [dif_pos hpos] at hloop
      cases hloop
    · rw [dif_neg hpos] at hloop
      split at hloop
      · cases hloop
        simp
        omega
      · rename_i r heq
        split at hloop
        · split at hloop
          · cases hloop
          · rename_i rest hrec
            cases hloop
            have hrest := ih r.redirectUrlOf (position + 1) rest (by omega) hrec
            simp
            omega
        · cases hloop
          simp
          omega

/-- When every visit up to the depth budget classifies as a redirect,
the loop reaches `position > maxRedirectDepth` and throws. -/
theorem followLoop_depth_error (network : Network) (options : FollowOptions) :
    ∀ (n : Nat) (url : String) (position : Nat),
      allRedirectsB network options url position n = true →
      position + n = options.maxRedirectDepth + 1 →
      followLoop network options url position =
        .error ("Exceeded max redirect depth of " ++ toString options.maxRedirectDepth) := by
  intro n
  induction n with
  | zero =>
    intro url position hall hpos
    rw [followLoop]
    rw [dif_pos (by omega)]
  | succ n ih =>
    intro url position hall hpos
    unfold allRedirectsB at hall
    cases hv : visit network url position options with
    | error e => rw [hv] at hall; simp at hall
    | ok r =>
      rw [hv] at hall
      simp only [Bool.and_eq_true] at hall
      obtain ⟨hred, hrest⟩ := hall
      rw [followLoop]
      rw [dif_neg (by omega), hv]
      simp only [hred, if_true]
      rw [ih r.redirectUrlOf (position + 1) hrest (by omega)]

/-! ## Behavior of the granular follow-redirects step on follow outcomes -/

/-- A rejection of `traverse` propagates out of the step: `flow` has no
try/catch. -/
theorem flow_error_of_follow_error (network : Network) (options : FollowOptions)
    (resource : UniformResource) (e : String)
    (h : follow network resource.uri options = .error e) :
    followRedirectsGranularFlow network options resource = .error e := by
  unfold followRedirectsGranularFlow
  rw [h]

/-- A visit list ending in a `VisitError` makes `flow` return the
`InvalidResource`-shaped spread of the input. -/
theorem flow_invalid_of_visitError_last (network : Network)
    (options : FollowOptions) (resource : UniformResource)
    (rs : List VisitResult) (last : VisitResult)
    (hok : follow network resource.uri options = .ok rs)
    (hlast : rs.getLast? = some last)
    (herr : isVisitError last = true) :
    followRedirectsGranularFlow network options resource =
      .ok (.mk resource.uri resource.label resource.provenance
        resource.transformedFromUR resource.pipePosition last.errorOf
        resource.isFollowedResource resource.isRedirectedResource
        resource.followResults resource.terminalResult resource.uRLString
        true last.errorOf) := by
  unfold followRedirectsGranularFlow
  rw [hok]
  have hne : rs ≠ [] := by
    intro hnil
    subst hnil
    simp at hlast
  have hlen : rs.length > 0 := List.length_pos.mpr hne
  simp [hlen, hlast, not_terminal_of_visitError last herr, herr]

/-- A single-visit terminal traversal: `flow` returns the plain
`FollowedResource` spread — no `pipePosition`, no `transformedFromUR`,
no `followResults`. -/
theorem flow_followed_of_single_terminal (network : Network)
    (options : FollowOptions) (resource : UniformResource) (r : VisitResult)
    (hok : follow network resource.uri options = .ok [r])
    (hterm : isTerminalResult r = true) :
    followRedirectsGranularFlow network options resource =
      .ok (.mk r.url resource.label resource.provenance
        resource.transformedFromUR resource.pipePosition resource.remarks
        true resource.isRedirectedResource resource.followResults
        (some r) (some r.url) resource.isInvalidResource resource.errorField) := by
  unfold followRedirectsGranularFlow
  rw [hok]
  simp [hterm]

/-- A multi-visit terminal traversal: `flow` returns the
`RedirectedResource` spread carrying the transform fields, the full
visit list and the overwritten `uri`. -/
theorem flow_redirected_of_multi_terminal (network : Network)
    (options : FollowOptions) (resource : UniformResource)
    (rs : List VisitResult) (last : VisitResult)
    (hok : follow network resource.uri options = .ok rs)
    (hlen : rs.length > 1)
    (hlast : rs.getLast? = some last)
    (hterm : isTerminalResult last = true) :
    followRedirectsGranularFlow network options resource =
      .ok (.mk last.url resource.label resource.provenance
        (some resource) (some (nextTransformationPipePosition resource))
        (some ("Followed, with " ++ toString rs.length ++ " results"))
        true true (some rs) (some last) (some last.url)
        resource.isInvalidResource resource.errorField) := by
  unfold followRedirectsGranularFlow
  rw [hok]
  have hlen0 : rs.length > 0 := by omega
  simp [hlen0, hlen, hlast, hterm]

/-- The consolidated `FollowRedirectsGranular.transform` on a cache
miss: every terminal traversal — single-visit ones included — yields
the fully transformed `FollowedResource`. -/
theorem transform_followed_of_terminal (network : Network)
    (options : FollowOptions) (resource : UniformResource)
    (rs : List VisitResult) (last : VisitResult)
    (hok : follow network resource.uri options = .ok rs)
    (hlast : rs.getLast? = some last)
    (hterm : isTerminalResult last = true) :
    followRedirectsGranularTransform network options none resource =
      .ok (.mk last.url resource.label resource.provenance
        (some resource) (some (nextTransformationPipePosition resource))
        (some ("Followed, with " ++ toString rs.length ++ " results"))
        true resource.isRedirectedResource (some rs) (some last)
        resource.uRLString resource.isInvalidResource resource.errorField) := by
  unfold followRedirectsGranularTransform
  rw [hok]
  have hne : rs ≠ [] := by
    intro hnil
    subst hnil
    simp at hlast
  have hlen : rs.length > 0 := List.length_pos.mpr hne
  simp [hlen, hlast, hterm]

/-- A no-redirect visit makes `follow` return that single result. -/
theorem follow_single_of_visit_nonredirect (network : Network)
    (options : FollowOptions) (url : String) (r : VisitResult)
    (hv : visit network url 1 options = .ok r)
    (hnr : isRedirectResult r = false)
    (hd : 1 ≤ options.maxRedirectDepth) :
    follow network url options = .ok [r] := by
  unfold follow
  rw [followLoop]
  rw [dif_neg (by omega), hv]
  simp [hnr]

/-- Core induction for the caught-exception shape: `n` redirects and
then a throwing fetch produce `n + 1` results ending in the caught
`VisitError`. -/
theorem followLoop_of_chainThenFailB (network : Network) (options : FollowOptions) :
    ∀ (n : Nat) (url : String) (position : Nat),
      chainThenFailB network options url position n = true →
      position + n ≤ options.maxRedirectDepth →
      ∃ (rs : List VisitResult) (last : VisitResult),
        followLoop network options url position = .ok rs ∧
        rs.length = n + 1 ∧
        rs.getLast? = some last ∧
        isVisitError last = true ∧
        (∀ i, (h : i < rs.length) → isVisitError rs[i] = decide (i = n)) := by
  intro n
  induction n with
  | zero =>
    intro url position hchain hdepth
    unfold chainThenFailB at hchain
    cases hv : visit network url position options with
    | ok r => rw [hv] at hchain; simp at hchain
    | error e =>
      refine ⟨[.visitError url e], .visitError url e, ?_, rfl, rfl, rfl, ?_⟩
      · rw [followLoop]
        rw [dif_neg (by omega), hv]
      · intro i h
        have h0 : i = 0 := by simp at h; omega
        subst h0
        simp [isVisitError]
  | succ n ih =>
    intro url position hchain hdepth
    unfold chainThenFailB at hchain
    cases hv : visit network url position options with
    | error e => rw [hv] at hchain; simp at hchain
    | ok r =>
      rw [hv] at hchain
      simp only [Bool.and_eq_true] at hchain
      obtain ⟨hred, hrest⟩ := hchain
      obtain ⟨rs, last, hloop, hlen, hlast, herrLast, herrIdx⟩ :=
        ih r.redirectUrlOf (position + 1) hrest (by omega)
      have hne : rs ≠ [] := by
        intro hnil
        subst hnil
        simp at hlast
      refine ⟨r :: rs, last, ?_, by simp [hlen], ?_, herrLast, ?_⟩
      · rw [followLoop]
        rw [dif_neg (by omega), hv]
        simp [hred, hloop]
      · rw [List.getLast?_cons]
        simp [hlast, List.getLast?_eq_none_iff, hne]
      · intro i h
        match i with
        | 0 =>
          simp only [List.getElem_cons_zero]
          rw [not_visitError_of_redirect r hred]
          have hne0 : 0 ≠ n + 1 := by omega
          simp [hne0]
        | i + 1 =>
          simp only [List.getElem_cons_succ]
          have hi : i < rs.length := by simp at h; omega
          rw [herrIdx i hi]
          simp [decide_eq_decide]

/-! ## Claim theorems -/

/-- Claim C1: for an origin URL whose fetches all succeed and whose
response chain is `n` redirect hops (HTTP or meta-refresh, as
classified by `visit`) followed by one non-redirect response, with
`n + 1` within `maxRedirectDepth`, `follow` returns exactly `n + 1`
visit results in hop order; the final one satisfies `isTerminalResult`
and no earlier one does (the earlier ones are the redirects).  With no
redirects (`n = 0`) the list is a single terminal result. -/
theorem c1_follow_redirect_chain (network : Network) (options : FollowOptions)
    (originUrl : String) (n : Nat)
    (hchain : redirectChainB network options originUrl 1 n = true)
    (hdepth : n + 1 ≤ options.maxRedirectDepth) :
    ∃ rs : List VisitResult,
      follow network originUrl options = .ok rs ∧
      rs.length = n + 1 ∧
      (∀ i, (h : i < rs.length) → isTerminalResult rs[i] = decide (i = n)) ∧
      (∀ i, (h : i < rs.length) → isRedirectResult rs[i] = decide (i < n)) := by
  obtain ⟨rs, h1, h2, h3, h4, _⟩ :=
    followLoop_of_redirectChainB network options n originUrl 1 hchain (by omega)
  exact ⟨rs, h1, h2, h3, h4⟩

/-- Witness for C1 at the concrete three-hop chain (one HTTP 301 hop,
one meta-refresh hop, one terminal text response). -/
theorem c1_follow_redirect_chain_witness :
    redirectChainB chainNet chainOptions "http://a.example/" 1 2 = true ∧
    2 + 1 ≤ chainOptions.maxRedirectDepth ∧
    ∃ rs : List VisitResult,
      follow chainNet "http://a.example/" chainOptions = .ok rs ∧
      rs.length = 2 + 1 ∧
      (∀ i, (h : i < rs.length) → isTerminalResult rs[i] = decide (i = 2)) ∧
      (∀ i, (h : i < rs.length) → isRedirectResult rs[i] = decide (i < 2)) :=
  ⟨by decide, by decide,
    c1_follow_redirect_chain chainNet chainOptions "http://a.example/" 2
      (by decide) (by decide)⟩

/-- Claim C2, corrected: when the redirect chain exceeds
`maxRedirectDepth`, resolution still terminates — an `ok` outcome never
carries more than `maxRedirectDepth` visits — but the loop throws a
depth-exceeded exception rather than producing an error value, and the
exception propagates through the granular follow-redirects step to its
caller (the code has no conversion to an `InvalidResource` on this
path). -/
theorem c2_depth_exceeded_terminates_and_throws (network : Network)
    (options : FollowOptions) (resource : UniformResource) :
    (∀ rs : List VisitResult,
      follow network resource.uri options = .ok rs →
      rs.length ≤ options.maxRedirectDepth) ∧
    (allRedirectsB network options resource.uri 1 options.maxRedirectDepth = true →
      follow network resource.uri options =
        .error ("Exceeded max redirect depth of " ++ toString options.maxRedirectDepth) ∧
      followRedirectsGranularFlow network options resource =
        .error ("Exceeded max redirect depth of " ++ toString options.maxRedirectDepth)) := by
  constructor
  · intro rs hok
    have := followLoop_ok_length network options options.maxRedirectDepth
      resource.uri 1 rs (by omega) hok
    omega
  · intro hall
    have herr := followLoop_depth_error network options options.maxRedirectDepth
      resource.uri 1 hall (by omega)
    exact ⟨herr, flow_error_of_follow_error network options resource _ herr⟩

/-- Witness for C2 on the self-redirecting network with depth 3. -/
theorem c2_depth_exceeded_terminates_and_throws_witness :
    allRedirectsB loopNet loopOptions loopResource.uri 1
      loopOptions.maxRedirectDepth = true ∧
    (follow loopNet loopResource.uri loopOptions =
      .error ("Exceeded max redirect depth of " ++ toString loopOptions.maxRedirectDepth) ∧
     followRedirectsGranularFlow loopNet loopOptions loopResource =
      .error ("Exceeded max redirect depth of " ++ toString loopOptions.maxRedirectDepth)) :=
  ⟨by decide,
    (c2_depth_exceeded_terminates_and_throws loopNet loopOptions loopResource).2
      (by decide)⟩

/-- Counterexample to C2 as stated: for the self-redirecting origin the
granular follow-redirects step returns no resource value at all — in
particular no invalid/errored resource — because the depth-exceeded
throw escapes it. -/
theorem c2_counterexample_no_invalid_resource :
    followRedirectsGranularFlow loopNet loopOptions loopResource =
      .error "Exceeded max redirect depth of 3" ∧
    ∀ r : UniformResource,
      followRedirectsGranularFlow loopNet loopOptions loopResource ≠ .ok r := by
  have herr := followLoop_depth_error loopNet loopOptions 3
    loopResource.uri 1 (by decide) (by decide)
  have hflow := flow_error_of_follow_error loopNet loopOptions loopResource _ herr
  constructor
  · exact hflow
  · intro r hcontra
    rw [hflow] at hcontra
    cases hcontra

/-- Claim C3: an exception during any single visit is caught inside
`follow` and converted into a `VisitError` appended as the final
element (never re-thrown), and a traversal whose last visit is a
`VisitError` makes the follow-redirects step return an
`InvalidResource` carrying that error rather than throwing. -/
theorem c3_visit_exception_caught_and_invalid (network : Network)
    (options : FollowOptions) (resource : UniformResource) (n : Nat)
    (hchain : chainThenFailB network options resource.uri 1 n = true)
    (hdepth : n + 1 ≤ options.maxRedirectDepth) :
    ∃ (rs : List VisitResult) (last : VisitResult),
      follow network resource.uri options = .ok rs ∧
      rs.length = n + 1 ∧
      rs.getLast? = some last ∧
      isVisitError last = true ∧
      (∀ i, (h : i < rs.length) → isVisitError rs[i] = decide (i = n)) ∧
      ∃ invalid : UniformResource,
        followRedirectsGranularFlow network options resource = .ok invalid ∧
        invalid.isInvalidResource = true ∧
        invalid.errorField = last.errorOf ∧
        invalid.uri = resource.uri := by
  obtain ⟨rs, last, h1, h2, h3, h4, h5⟩ :=
    followLoop_of_chainThenFailB network options n resource.uri 1 hchain (by omega)
  refine ⟨rs, last, h1, h2, h3, h4, h5, ?_⟩
  rw [flow_invalid_of_visitError_last network options resource rs last h1 h3 h4]
  exact ⟨_, rfl, rfl, rfl, rfl⟩

/-- Witness for C3 at the malformed origin `https://t`, whose only
fetch throws; `follow` returns a single `VisitError` and the step
yields an `InvalidResource`. -/
theorem c3_visit_exception_caught_and_invalid_witness :
    chainThenFailB failNet chainOptions tResource.uri 1 0 = true ∧
    0 + 1 ≤ chainOptions.maxRedirectDepth ∧
    ∃ (rs : List VisitResult) (last : VisitResult),
      follow failNet tResource.uri chainOptions = .ok rs ∧
      rs.length = 0 + 1 ∧
      rs.getLast? = some last ∧
      isVisitError last = true ∧
      (∀ i, (h : i < rs.length) → isVisitError rs[i] = decide (i = 0)) ∧
      ∃ invalid : UniformResource,
        followRedirectsGranularFlow failNet chainOptions tResource = .ok invalid ∧
        invalid.isInvalidResource = true ∧
        invalid.errorField = last.errorOf ∧
        invalid.uri = tResource.uri :=
  ⟨by decide, by decide,
    c3_visit_exception_caught_and_invalid failNet chainOptions tResource 0
      (by decide) (by decide)⟩

/-- Claim C4, corrected: for the steps that are built on
`nextTransformationPipePosition` — label cleanup and tracking-code
removal — an applicable input yields an output whose `pipePosition` is
the input's `pipePosition + 1` when the input was already transformed
and `0` otherwise (with `transformedFromUR` set to the input), and an
inapplicable input is returned unchanged.  The universal claim over
every transformer step fails: see the counterexample, where the
follow-redirects step changes the resource without advancing
`pipePosition`. -/
theorem c4_no_op_or_next_pipe_position (resource : UniformResource) :
    (removeLabelLineBreaksAndTrimSpaces resource = resource ∨
      ((removeLabelLineBreaksAndTrimSpaces resource).pipePosition =
          some (match resource.pipePosition with | some p => p + 1 | none => 0) ∧
        (removeLabelLineBreaksAndTrimSpaces resource).transformedFromUR =
          some resource)) ∧
    (removeTrackingCodesFromUrl resource = resource ∨
      ((removeTrackingCodesFromUrl resource).pipePosition =
          some (match resource.pipePosition with | some p => p + 1 | none => 0) ∧
        (removeTrackingCodesFromUrl resource).transformedFromUR =
          some resource)) := by
  constructor
  · rcases hlab : resource.label with _ | labelText
    · left
      unfold removeLabelLineBreaksAndTrimSpaces
      rw [hlab]
    · by_cases hcl : (cleanLabelOf labelText != labelText) = true
      · right
        unfold removeLabelLineBreaksAndTrimSpaces
        rw [hlab]
        simp only [hcl, if_true]
        exact ⟨rfl, rfl⟩
      · left
        unfold removeLabelLineBreaksAndTrimSpaces
        rw [hlab]
        simp [hcl]
  · by_cases hcl : (stripUtm resource.uri != resource.uri) = true
    · right
      unfold removeTrackingCodesFromUrl
      simp only [hcl, if_true]
      exact ⟨rfl, rfl⟩
    · left
      unfold removeTrackingCodesFromUrl
      simp [hcl]

/-- Counterexample to C4 as stated: on a direct-terminal origin the
follow-redirects step changes the resource (it was not a followed
resource, the output is) yet its output carries no `pipePosition` at
all — not the `0` the invariant demands for a changed output of an
untransformed input. -/
theorem c4_counterexample_follow_step_changes_without_position :
    ∃ r : UniformResource,
      followRedirectsGranularFlow singleNet chainOptions singleResource = .ok r ∧
      r.isFollowedResource = true ∧
      singleResource.isFollowedResource = false ∧
      r.pipePosition = none ∧
      r.transformedFromUR = none := by
  have hv : visit singleNet singleResource.uri 1 chainOptions =
      .ok (.terminalTextContent "http://single.example/" 200 "final article body"
        "text/html; charset=utf-8" "text") := by rfl
  have hf := follow_single_of_visit_nonredirect singleNet chainOptions
    singleResource.uri _ hv (by decide) (by decide)
  have hflow := flow_followed_of_single_terminal singleNet chainOptions
    singleResource _ hf (by decide)
  exact ⟨_, hflow, rfl, rfl, rfl, rfl⟩

/-- Claim C5: the pipeline combinator on zero steps is the identity
transformer; on any step list it runs the steps strictly sequentially
in insertion order, passing the same context to each and threading each
output into the next input (a left fold of `Except` sequencing); and
composing `[A, B]` and then appending `C` is extensionally the same
transformer as composing `[A, B, C]`. -/
theorem c5_transformation_pipe_composition
    (stepA stepB stepC : ResourceTransformer)
    (chain : List ResourceTransformer)
    (ctx : TransformerContext) (resource : UniformResource) :
    transformationPipe [] ctx resource = .ok resource ∧
    transformationPipe chain ctx resource =
      chain.foldl (fun acc step => acc.bind (step ctx)) (.ok resource) ∧
    transformationPipe [transformationPipe [stepA, stepB], stepC] ctx resource =
      transformationPipe [stepA, stepB, stepC] ctx resource := by
  refine ⟨rfl, ?_, rfl⟩
  match chain with
  | [] => rfl
  | [t] => rfl
  | t :: u :: rest => rfl

/-- Claim C6: the `lruCache` target is supposed to evict the
least-recently-accessed key on overflow, keeping the newly inserted and
most recently used keys retrievable.  Code-bug evidence, evaluating the
source's traps on a capacity-1 cache: after `set a`, `get a`, `set b`,
the newly inserted key `b` is gone (the handler runs `delete obj[key]`
on the key just written) while the least-recently-used `a` is still
retrievable (only the key set, not the object, drops it). -/
theorem c6_lru_cache_eviction_code_eval :
    (cacheGet natTruthy
      (cacheSet 1 ((cacheGet natTruthy (cacheSet 1 (lruCacheInit Nat) "a" 1) "a").snd)
        "b" 2) "b").fst = none ∧
    (cacheGet natTruthy
      (cacheSet 1 ((cacheGet natTruthy (cacheSet 1 (lruCacheInit Nat) "a" 1) "a").snd)
        "b" 2) "a").fst = some 1 :=
  ⟨rfl, rfl⟩

/-- Counterexample to C7 as stated: with both social-graph titles
present, the resolved title is the Open Graph one — the Twitter Card
title is not chosen. -/
theorem c7_counterexample_twitter_not_preferred :
    buildCuratableContentTitle "Page Title" bothTitlesSocialGraph = "OG Title" ∧
    buildCuratableContentTitle "Page Title" bothTitlesSocialGraph ≠ "TW Title" := by
  exact ⟨rfl, by decide⟩

/-- Claim C7, corrected: the curatable-content title is resolved by the
priority Open Graph title > Twitter Card title > page title (each
social title used only when truthy, i.e. present and non-empty). -/
theorem c7_title_priority (pageTitle : String) (sg : SocialGraph) :
    buildCuratableContentTitle pageTitle sg =
      match truthyTitle (sg.openGraph.bind OpenGraph.title) with
      | some t => t
      | none =>
        match truthyTitle (sg.twitter.bind TwitterCard.title) with
        | some t => t
        | none => pageTitle := by
  unfold buildCuratableContentTitle
  cases hog : truthyTitle (sg.openGraph.bind OpenGraph.title) with
  | none =>
    cases htw : truthyTitle (sg.twitter.bind TwitterCard.title) with
    | none => simp [hog, htw]
    | some t => simp [hog, htw]
  | some t =>
    cases htw : truthyTitle (sg.twitter.bind TwitterCard.title) with
    | none => simp [hog, htw]
    | some u => simp [hog, htw]

/-- Claim C8, corrected: when the traversal ends in a terminal visit
after at least one redirect (two or more visits), the granular
follow-redirects step produces a `RedirectedResource` that is a
`TransformedResource` (it carries `transformedFromUR` and
`pipePosition`), records the complete ordered visit list and the single
terminal result, and overwrites `uri` with the final resolved URL.  The
consolidated `FollowRedirectsGranular.transform` additionally does all
of this for every terminal traversal, single-visit ones included; the
granular step on a single-visit traversal does not (see the
counterexample). -/
theorem c8_followed_resource_shape (network : Network)
    (options : FollowOptions) (resource : UniformResource) (n : Nat)
    (hchain : redirectChainB network options resource.uri 1 n = true)
    (hdepth : n + 1 ≤ options.maxRedirectDepth)
    (hmulti : 1 ≤ n) :
    ∃ (rs : List VisitResult) (last : VisitResult),
      follow network resource.uri options = .ok rs ∧
      rs.length = n + 1 ∧
      rs.getLast? = some last ∧
      isTerminalResult last = true ∧
      (∃ r : UniformResource,
        followRedirectsGranularFlow network options resource = .ok r ∧
        r.isFollowedResource = true ∧
        r.isRedirectedResource = true ∧
        isTransformedResource r = true ∧
        r.transformedFromUR = some resource ∧
        r.pipePosition = some (nextTransformationPipePosition resource) ∧
        r.followResults = some rs ∧
        r.terminalResult = some last ∧
        r.uri = last.url ∧
        r.uRLString = some last.url) ∧
      (∃ rc : UniformResource,
        followRedirectsGranularTransform network options none resource = .ok rc ∧
        rc.isFollowedResource = true ∧
        isTransformedResource rc = true ∧
        rc.transformedFromUR = some resource ∧
        rc.pipePosition = some (nextTransformationPipePosition resource) ∧
        rc.followResults = some rs ∧
        rc.terminalResult = some last ∧
        rc.uri = last.url) := by
  obtain ⟨rs, h1, h2, h3, _, _⟩ :=
    followLoop_of_redirectChainB network options n resource.uri 1 hchain (by omega)
  have hn : n < rs.length := by omega
  have hterm : isTerminalResult rs[n] = true := by
    have := h3 n hn
    simpa using this
  have hlast : rs.getLast? = some rs[n] := by
    rw [List.getLast?_eq_getElem?]
    have hidx : rs.length - 1 = n := by omega
    rw [hidx]
    exact List.getElem?_eq_getElem hn
  have hlen1 : rs.length > 1 := by omega
  refine ⟨rs, rs[n], h1, h2, hlast, hterm, ?_, ?_⟩
  · rw [flow_redirected_of_multi_terminal network options resource rs rs[n]
      h1 hlen1 hlast hterm]
    refine ⟨_, rfl, rfl, rfl, ?_, rfl, rfl, rfl, rfl, rfl, rfl⟩
    simp [isTransformedResource, UniformResource.transformedFromUR,
      UniformResource.pipePosition]
  · rw [transform_followed_of_terminal network options resource rs rs[n]
      h1 hlast hterm]
    refine ⟨_, rfl, rfl, ?_, rfl, rfl, rfl, rfl, rfl⟩
    simp [isTransformedResource, UniformResource.transformedFromUR,
      UniformResource.pipePosition]

/-- Witness for C8 at the concrete three-hop chain. -/
theorem c8_followed_resource_shape_witness :
    redirectChainB chainNet chainOptions chainResource.uri 1 2 = true ∧
    2 + 1 ≤ chainOptions.maxRedirectDepth ∧ 1 ≤ 2 ∧
    ∃ (rs : List VisitResult) (last : VisitResult),
      follow chainNet chainResource.uri chainOptions = .ok rs ∧
      rs.length = 2 + 1 ∧
      rs.getLast? = some last ∧
      isTerminalResult last = true ∧
      (∃ r : UniformResource,
        followRedirectsGranularFlow chainNet chainOptions chainResource = .ok r ∧
        r.isFollowedResource = true ∧
        r.isRedirectedResource = true ∧
        isTransformedResource r = true ∧
        r.transformedFromUR = some chainResource ∧
        r.pipePosition = some (nextTransformationPipePosition chainResource) ∧
        r.followResults = some rs ∧
        r.terminalResult = some last ∧
        r.uri = last.url ∧
        r.uRLString = some last.url) ∧
      (∃ rc : UniformResource,
        followRedirectsGranularTransform chainNet chainOptions none chainResource = .ok rc ∧
        rc.isFollowedResource = true ∧
        isTransformedResource rc = true ∧
        rc.transformedFromUR = some chainResource ∧
        rc.pipePosition = some (nextTransformationPipePosition chainResource) ∧
        rc.followResults = some rs ∧
        rc.terminalResult = some last ∧
        rc.uri = last.url) :=
  ⟨by decide, by decide, by decide,
    c8_followed_resource_shape chainNet chainOptions chainResource 2
      (by decide) (by decide) (by decide)⟩

/-- Counterexample to C8 as stated: a traversal that is terminal at the
very first visit makes the granular step produce a `FollowedResource`
whose `uri` is overwritten but which is not a `TransformedResource` and
records no `followResults` list. -/
theorem c8_counterexample_single_visit_shape :
    ∃ r : UniformResource,
      followRedirectsGranularFlow singleNet chainOptions singleResource = .ok r ∧
      r.isFollowedResource = true ∧
      isTransformedResource r = false ∧
      r.followResults = none ∧
      r.transformedFromUR = none ∧
      r.pipePosition = none := by
  have hv : visit singleNet singleResource.uri 1 chainOptions =
      .ok (.terminalTextContent "http://single.example/" 200 "final article body"
        "text/html; charset=utf-8" "text") := by rfl
  have hf := follow_single_of_visit_nonredirect singleNet chainOptions
    singleResource.uri _ hv (by decide) (by decide)
  have hflow := flow_followed_of_single_terminal singleNet chainOptions
    singleResource _ hf (by decide)
  exact ⟨_, hflow, rfl, rfl, rfl, rfl, rfl⟩

unseal stripUtmAux

/-- Claim C9: tracking-parameter removal is supposed to strip `utm_*`
from the URI, making a second application a no-op.  Code-bug evidence,
evaluated at a URI carrying `utm_source`: the cleaned URI is computed
(first conjunct) but the step's output keeps the original URI with the
tracking code (second conjunct) while its remark claims removal (third
conjunct); consequently the second application wraps the resource again
instead of returning it unchanged (the pipe position advances from 0 to
1). -/
theorem c9_tracking_removal_code_eval :
    stripUtm utmResource.uri = "https://example.com/?id=1" ∧
    (removeTrackingCodesFromUrl utmResource).uri =
      "https://example.com/?utm_source=twitter&id=1" ∧
    (removeTrackingCodesFromUrl utmResource).remarks =
      some "Removed utm_* tracking parameters from URL" ∧
    (removeTrackingCodesFromUrl utmResource).pipePosition = some 0 ∧
    (removeTrackingCodesFromUrl
      (removeTrackingCodesFromUrl utmResource)).pipePosition = some 1 :=
  ⟨rfl, rfl, rfl, rfl, rfl⟩

/-- Claim C10: when the sniffer cannot determine a file type, the
finalized download result carries `unknownFileType`, `downloadDestPath`
and `downloadedFileStats` but no `downloadedFileType`; therefore
`isDownloadIdeterminateFileResult` — which requires both
`unknownFileType` and `downloadedFileType` — rejects it, and indeed
rejects every value `finalize` can produce. -/
theorem c10_indeterminate_download_lacks_file_type
    (determineFileType : Bool) (downloadDestPath : String)
    (sizeHeader : Option Int) (stats : Nat) (cd : Option String)
    (sniffed : Option FileTypeResult)
    (hdft : determineFileType = true) (hsniff : sniffed = none) :
    (typicalDownloaderFinalize determineFileType downloadDestPath sizeHeader
        stats cd sniffed).unknownFileType =
      some ("Unable to determine type of file " ++ downloadDestPath) ∧
    (typicalDownloaderFinalize determineFileType downloadDestPath sizeHeader
        stats cd sniffed).downloadDestPath = some downloadDestPath ∧
    (typicalDownloaderFinalize determineFileType downloadDestPath sizeHeader
        stats cd sniffed).downloadedFileStats = some stats ∧
    (typicalDownloaderFinalize determineFileType downloadDestPath sizeHeader
        stats cd sniffed).downloadedFileType = none ∧
    isDownloadIdeterminateFileResult
      (typicalDownloaderFinalize determineFileType downloadDestPath sizeHeader
        stats cd sniffed) = false ∧
    (∀ (anyDft : Bool) (anySniffed : Option FileTypeResult),
      isDownloadIdeterminateFileResult
        (typicalDownloaderFinalize anyDft downloadDestPath sizeHeader
          stats cd anySniffed) = false) := by
  subst hdft hsniff
  refine ⟨rfl, rfl, rfl, rfl, rfl, ?_⟩
  intro anyDft anySniffed
  cases anyDft <;> cases anySniffed <;> rfl

/-- Witness for C10 at a concrete failed sniff. -/
theorem c10_indeterminate_download_lacks_file_type_witness :
    (typicalDownloaderFinalize true "/downloads/f8a2" none 1024 none
        none).unknownFileType =
      some ("Unable to determine type of file " ++ "/downloads/f8a2") ∧
    (typicalDownloaderFinalize true "/downloads/f8a2" none 1024 none
        none).downloadDestPath = some "/downloads/f8a2" ∧
    (typicalDownloaderFinalize true "/downloads/f8a2" none 1024 none
        none).downloadedFileStats = some 1024 ∧
    (typicalDownloaderFinalize true "/downloads/f8a2" none 1024 none
        none).downloadedFileType = none ∧
    isDownloadIdeterminateFileResult
      (typicalDownloaderFinalize true "/downloads/f8a2" none 1024 none
        none) = false ∧
    (∀ (anyDft : Bool) (anySniffed : Option FileTypeResult),
      isDownloadIdeterminateFileResult
        (typicalDownloaderFinalize anyDft "/downloads/f8a2" none 1024 none
          anySniffed) = false) :=
  c10_indeterminate_download_lacks_file_type true "/downloads/f8a2" none 1024
    none none rfl rfl
